import Mathlib

/-!
# Verification of the ExpenseTracker backend against its specification

Shallow embedding of `src/expense-tracker-backend/server.js`: each Express
handler becomes a Lean function over an explicit database state, and each
parameterized SQL statement is executed with its relational semantics over
lists.  Request-body fields that JavaScript destructuring may leave
`undefined` are modelled as `Option` values (node-postgres sends `undefined`
as SQL NULL); the bcrypt and jsonwebtoken collaborators are opaque function
parameters, as the specification treats them.
-/

namespace ExpenseTracker

/-- A SQL timestamp, split into its calendar parts plus seconds within the
day, ordered lexicographically.  `EXTRACT(MONTH/YEAR/DAY ...)` reads the
corresponding field. -/
structure Timestamp where
  year : Nat
  month : Nat
  day : Nat
  sec : Nat
deriving DecidableEq

/-- A SQL date (the result of `created_at::date`). -/
structure Date where
  year : Nat
  month : Nat
  day : Nat
deriving DecidableEq

/-- The date component of a timestamp (`::date` cast). -/
def Timestamp.date (t : Timestamp) : Date :=
  ⟨t.year, t.month, t.day⟩

/-- Lexicographic key of a date, giving the SQL date order. -/
def Date.key (d : Date) : Lex (Nat × Lex (Nat × Nat)) :=
  toLex (d.year, toLex (d.month, d.day))

/-- Lexicographic key of a timestamp, giving the SQL timestamp order. -/
def Timestamp.key (t : Timestamp) : Lex (Nat × Lex (Nat × Lex (Nat × Nat))) :=
  toLex (t.year, toLex (t.month, toLex (t.day, t.sec)))

/-- SQL `<=` on dates. -/
def Date.le (a b : Date) : Prop := a.key ≤ b.key

instance (a b : Date) : Decidable (Date.le a b) :=
  inferInstanceAs (Decidable (a.key ≤ b.key))

/-- SQL `<=` on timestamps. -/
def Timestamp.le (a b : Timestamp) : Prop := a.key ≤ b.key

instance (a b : Timestamp) : Decidable (Timestamp.le a b) :=
  inferInstanceAs (Decidable (a.key ≤ b.key))

/-- A bare date cast to a timestamp (as PostgreSQL does for the query-string
`startDate`/`endDate` parameters when compared with a `timestamp` column):
midnight at the start of that day. -/
def tsOfDate (d : Date) : Timestamp :=
  ⟨d.year, d.month, d.day, 0⟩

/-- A row of the `users` table. -/
structure User where
  id : Nat
  username : String
  email : String
  password_hash : String
deriving DecidableEq

/-- A row of the `expenses` table.  `created_at` is `Option` because the
column is nullable and the POST handler can bind SQL NULL to it. -/
structure Expense where
  id : Nat
  amount : Int
  description : String
  category : String
  created_at : Option Timestamp
  user_id : Nat
deriving DecidableEq

/-- A row of the `categories` table; (name, user_id) is unique. -/
structure Category where
  name : String
  user_id : Nat
deriving DecidableEq

/-- The relational store: the three tables of the schema. -/
structure DbState where
  users : List User
  expenses : List Expense
  categories : List Category
deriving DecidableEq

/-- An HTTP response carrying either a success value or an error message,
as the handlers produce via `res.status(...).json(...)`. -/
inductive Resp (α : Type) where
  | ok (status : Nat) (val : α)
  | err (status : Nat) (msg : String)
deriving DecidableEq

/-! ## PUT /expenses/:id and DELETE /expenses/:id (server.js lines 333–386) -/

/-- The `SET` clause of the UPDATE: full replacement of the four fields. -/
def updateFields (amount : Int) (description category : String)
    (created_at : Option Timestamp) (e : Expense) : Expense :=
  { e with amount := amount, description := description,
           category := category, created_at := created_at }

/-- `PUT /expenses/:id`: `UPDATE expenses SET ... WHERE id = $5 AND
user_id = $6 RETURNING *`; `rowCount = 0` (no row matches both the id and
the caller's user id) yields 404 and the table is untouched. -/
def updateExpense (st : DbState) (userId expenseId : Nat) (amount : Int)
    (description category : String) (created_at : Option Timestamp) :
    Resp Expense × DbState :=
  let matched := st.expenses.filter (fun e => e.id == expenseId && e.user_id == userId)
  match matched with
  | [] =>
    (.err 404 "Expense not found or you do not have permission to edit it.", st)
  | e :: _ =>
    (.ok 200 (updateFields amount description category created_at e),
     { st with expenses := st.expenses.map (fun r =>
        if r.id == expenseId && r.user_id == userId then
          updateFields amount description category created_at r
        else r) })

/-- `DELETE /expenses/:id`: `DELETE FROM expenses WHERE id = $1 AND
user_id = $2 RETURNING *`; `rowCount = 0` yields 404. -/
def deleteExpense (st : DbState) (userId expenseId : Nat) :
    Resp String × DbState :=
  let deleted := st.expenses.filter (fun e => e.id == expenseId && e.user_id == userId)
  if deleted.isEmpty then
    (.err 404 "Expense not found or not authorized", st)
  else
    (.ok 200 "Expense deleted successfully",
     { st with expenses :=
        st.expenses.filter (fun e => !(e.id == expenseId && e.user_id == userId)) })

/-! ## Auth middleware and route table (server.js lines 25–39 and the
`app.method(path, ...)` registrations) -/

/-- What the middleware does with a request: pass the decoded user id on, or
reject with a status and message. -/
inductive AuthResult where
  | ok (userId : Nat)
  | reject (status : Nat) (msg : String)
deriving DecidableEq

/-- JavaScript truthiness of `!token` on the `Authorization` header: the
header is absent (`undefined`) or the empty string. -/
def tokenFalsy : Option String → Bool
  | none => true
  | some t => t == ""

/-- `authMiddleware`: `verify` stands for `jwt.verify(token, jwtSecret)`,
returning the decoded `userId` or `none` when signature or expiry
verification throws. -/
def authMiddleware (verify : String → Option Nat) (authHeader : Option String) :
    AuthResult :=
  if tokenFalsy authHeader then
    .reject 401 "No token, authorization denied"
  else
    match verify (authHeader.getD "") with
    | some userId => .ok userId
    | none => .reject 401 "Token is not valid"

/-- One registered Express route: method, path, and whether
`authMiddleware` is interposed before the handler. -/
structure Route where
  method : String
  path : String
  usesAuthMiddleware : Bool
deriving DecidableEq

/-- Every route `server.js` registers, in registration order. -/
def routes : List Route :=
  [⟨"POST", "/api/register", false⟩,
   ⟨"POST", "/api/login", false⟩,
   ⟨"POST", "/expenses", true⟩,
   ⟨"GET", "/expenses", true⟩,
   ⟨"GET", "/reports/category-summary", true⟩,
   ⟨"GET", "/reports/monthly-summary", true⟩,
   ⟨"GET", "/reports/weekly-category-summary", true⟩,
   ⟨"GET", "/reports/yearly-category-summary", true⟩,
   ⟨"GET", "/reports/yearly-summary", true⟩,
   ⟨"GET", "/reports/weekly-summary", true⟩,
   ⟨"PUT", "/expenses/:id", true⟩,
   ⟨"DELETE", "/expenses/:id", true⟩,
   ⟨"GET", "/expenses/range", true⟩,
   ⟨"GET", "/reports/range-category-summary", true⟩,
   ⟨"GET", "/reports/range-daily-summary", true⟩,
   ⟨"GET", "/categories", true⟩,
   ⟨"POST", "/categories", true⟩,
   ⟨"DELETE", "/categories", true⟩]

/-! ## POST /api/register and POST /api/login (server.js lines 42–111) -/

/-- Errors a `pool.query` call can throw: PostgreSQL's unique-constraint
violation (`err.code === "23505"`) or any other storage fault. -/
inductive DbError where
  | uniqueViolation
  | other
deriving DecidableEq

/-- The id the database generates for a new `users` row. -/
def nextUserId (st : DbState) : Nat :=
  st.users.foldl (fun m u => max m u.id) 0 + 1

/-- `INSERT INTO users (username, email, password_hash) VALUES ($1, $2, $3)
RETURNING id, username, email`: the unique constraints on `username` and
`email` make a duplicate of either raise error code 23505. -/
def insertUser (st : DbState) (username email password_hash : String) :
    Except DbError (User × DbState) :=
  if st.users.any (fun u => u.username == username || u.email == email) then
    .error .uniqueViolation
  else
    let u : User := ⟨nextUserId st, username, email, password_hash⟩
    .ok (u, { st with users := u :: st.users })

/-- `POST /api/register`.  `hash` stands for the bcrypt salt-and-hash step
and `sign` for `jwt.sign({ userId }, jwtSecret, { expiresIn: "1h" })`, both
opaque collaborators.  `fault` injects any storage failure other than a
unique-constraint violation; the handler's catch block maps error code
23505 to 400 and everything else to 500. -/
def register (st : DbState) (hash : String → String) (sign : Nat → String)
    (username email password : String) (fault : Bool) :
    Resp (String × User) × DbState :=
  let attempt : Except DbError (User × DbState) :=
    if fault then .error .other else insertUser st username email (hash password)
  match attempt with
  | .error .uniqueViolation => (.err 400 "Username or email already exists", st)
  | .error .other => (.err 500 "Server error during registration", st)
  | .ok (u, st2) => (.ok 201 (sign u.id, u), st2)

/-- `SELECT * FROM users WHERE username = $1`, taking `rows[0]`. -/
def findUser (st : DbState) (username : String) : Option User :=
  st.users.find? (fun u => u.username == username)

/-- `POST /api/login`.  `compare` stands for
`bcrypt.compare(password, user.password_hash)` and `sign` for `jwt.sign`.
The no-such-user and hash-mismatch paths return the same response. -/
def login (st : DbState) (compare : String → String → Bool)
    (sign : Nat → String) (username password : String) :
    Resp (String × Nat) :=
  match findUser st username with
  | none => .err 400 "Invalid username or password"
  | some u =>
    if compare password u.password_hash then
      .ok 200 (sign u.id, u.id)
    else
      .err 400 "Invalid username or password"

/-! ## POST /expenses (server.js lines 122–136) -/

/-- Modelled from the spec (§3: `created_at` is a "timestamp, defaults to
now unless supplied" — the SQL schema itself is not among the repository's
files): what an INSERT stores in the `created_at` column.  `binding = none`
means the column is absent from the INSERT's column list, so its
`DEFAULT now()` fires; `binding = some v` means the column is listed and the
bound value `v` — including SQL NULL, `v = none` — is stored verbatim, the
default never applying to an explicitly bound value. -/
def storedCreatedAt (binding : Option (Option Timestamp)) (now : Timestamp) :
    Option Timestamp :=
  match binding with
  | none => some now
  | some v => v

/-- The id the database generates for a new `expenses` row. -/
def nextExpenseId (st : DbState) : Nat :=
  st.expenses.foldl (fun m e => max m e.id) 0 + 1

/-- `POST /expenses`: `INSERT INTO expenses (amount, description, category,
created_at, user_id) VALUES ($1, $2, $3, $4, $5) RETURNING *`.  The handler
always lists `created_at` and binds `req.body.created_at` to `$4`; when the
caller omits the field, JavaScript destructuring yields `undefined`, which
node-postgres sends as SQL NULL (`none` here). -/
def createExpense (st : DbState) (now : Timestamp) (userId : Nat)
    (amount : Int) (description category : String)
    (created_at : Option Timestamp) : Resp Expense × DbState :=
  let row : Expense :=
    ⟨nextExpenseId st, amount, description, category,
     storedCreatedAt (some created_at) now, userId⟩
  (.ok 201 row, { st with expenses := st.expenses ++ [row] })

/-! ## GET /expenses (server.js lines 139–159) -/

/-- `EXTRACT(MONTH FROM created_at) = $1 AND EXTRACT(YEAR FROM created_at)
= $2`.  On a NULL `created_at` the extracts are NULL and the comparison is
not true, so the row is filtered out. -/
def monthYearMatches (m y : Nat) (e : Expense) : Bool :=
  match e.created_at with
  | none => false
  | some t => t.month == m && t.year == y

/-- Sort key for `ORDER BY created_at`: PostgreSQL sorts NULLs last in
ascending order, hence first under `DESC`, so NULL is the top element. -/
def okey (c : Option Timestamp) : WithTop (Lex (Nat × Lex (Nat × Lex (Nat × Nat)))) :=
  match c with
  | none => ⊤
  | some t => (t.key : WithTop _)

/-- The comparison `ORDER BY created_at DESC` sorts by. -/
def createdDesc (a b : Expense) : Prop :=
  okey b.created_at ≤ okey a.created_at

instance : DecidableRel createdDesc := fun a b =>
  inferInstanceAs (Decidable (okey b.created_at ≤ okey a.created_at))

instance : IsTotal Expense createdDesc :=
  ⟨fun a b => le_total (okey b.created_at) (okey a.created_at)⟩

instance : IsTrans Expense createdDesc :=
  ⟨fun _ _ _ hab hbc => le_trans hbc hab⟩

/-- `ORDER BY created_at DESC`. -/
def sortByCreatedDesc (l : List Expense) : List Expense :=
  l.insertionSort createdDesc

/-- `GET /expenses`: the handler starts from `SELECT * FROM expenses WHERE
user_id = $3` and appends the `EXTRACT(MONTH ...) = $1 AND EXTRACT(YEAR ...)
= $2` conjuncts only when `month && year` is truthy (both query parameters
present), then `ORDER BY created_at DESC`. -/
def listExpenses (st : DbState) (userId : Nat) (month year : Option Nat) :
    List Expense :=
  match month, year with
  | some m, some y =>
    sortByCreatedDesc (st.expenses.filter (fun e =>
      e.user_id == userId && monthYearMatches m y e))
  | _, _ =>
    sortByCreatedDesc (st.expenses.filter (fun e => e.user_id == userId))

/-! ## Reporting handlers (server.js lines 214–244, 307–331, 411–462) -/

/-- `created_at BETWEEN $1 AND $2` with `$1`/`$2` the date-string
parameters cast to timestamps (midnight): a full-timestamp comparison, as
the weekly-summary and weekly-category-summary queries issue it.  NULL
`created_at` never satisfies a BETWEEN. -/
def tsBetween (s e : Date) (x : Expense) : Bool :=
  match x.created_at with
  | none => false
  | some t => decide (Timestamp.le (tsOfDate s) t) && decide (Timestamp.le t (tsOfDate e))

/-- `created_at::date BETWEEN $1 AND $2`: the date-only comparison the
range-family queries issue. -/
def inDateRange (s e : Date) (x : Expense) : Bool :=
  match x.created_at with
  | none => false
  | some t => decide (Date.le s t.date) && decide (Date.le t.date e)

/-- `created_at::date` of a row, NULL propagating. -/
def expenseDate (x : Expense) : Option Date :=
  x.created_at.map Timestamp.date

/-- The comparison `ORDER BY day ASC` sorts by. -/
def dateAsc (a b : Date) : Prop := a.key ≤ b.key

instance : DecidableRel dateAsc := fun a b =>
  inferInstanceAs (Decidable (a.key ≤ b.key))

instance : IsTotal Date dateAsc := ⟨fun a b => le_total a.key b.key⟩

instance : IsTrans Date dateAsc := ⟨fun _ _ _ hab hbc => le_trans hab hbc⟩

/-- The comparison `ORDER BY total_amount DESC` sorts grouped rows by. -/
def totalDesc {α : Type} (a b : α × Int) : Prop := b.2 ≤ a.2

instance {α : Type} : DecidableRel (totalDesc (α := α)) := fun a b =>
  inferInstanceAs (Decidable (b.2 ≤ a.2))

instance {α : Type} : IsTotal (α × Int) totalDesc :=
  ⟨fun a b => le_total b.2 a.2⟩

instance {α : Type} : IsTrans (α × Int) totalDesc :=
  ⟨fun _ _ _ hab hbc => le_trans hbc hab⟩

/-- The distinct `day` group keys of a row set (`GROUP BY day` over
`created_at::date AS day`; rows whose cast is NULL contribute no key here —
the WHERE clauses of the queries below already dropped them). -/
def daysOf (l : List Expense) : List Date :=
  (l.filterMap expenseDate).dedup

/-- `ORDER BY day ASC` on group keys. -/
def sortDatesAsc (l : List Date) : List Date :=
  l.insertionSort dateAsc

/-- `SUM(amount)` over the rows of one `day` group. -/
def sumFor (d : Date) (l : List Expense) : Int :=
  ((l.filter (fun x => expenseDate x == some d)).map Expense.amount).sum

/-- The distinct `category` group keys of a row set. -/
def categoriesOf (l : List Expense) : List String :=
  (l.map Expense.category).dedup

/-- `SUM(amount)` over the rows of one `category` group. -/
def sumForCat (c : String) (l : List Expense) : Int :=
  ((l.filter (fun x => x.category == c)).map Expense.amount).sum

/-- `GET /reports/weekly-summary`: groups `created_at::date AS day` with
`SUM(amount)` over `user_id = $3 AND created_at BETWEEN $1 AND $2`
(full-timestamp filter), `ORDER BY day ASC`. -/
def weeklySummary (st : DbState) (userId : Nat) (s e : Date) :
    List (Date × Int) :=
  let rows := st.expenses.filter (fun x => x.user_id == userId && tsBetween s e x)
  (sortDatesAsc (daysOf rows)).map (fun d => (d, sumFor d rows))

/-- `GET /reports/weekly-category-summary`: groups by `category` with
`SUM(amount)` over the same full-timestamp filter, `ORDER BY total_amount
DESC`. -/
def weeklyCategorySummary (st : DbState) (userId : Nat) (s e : Date) :
    List (String × Int) :=
  let rows := st.expenses.filter (fun x => x.user_id == userId && tsBetween s e x)
  ((categoriesOf rows).map (fun c => (c, sumForCat c rows))).insertionSort totalDesc

/-- `GET /reports/range-daily-summary`: groups `created_at::date AS day`
with `SUM(amount)` over `user_id = $3 AND created_at::date BETWEEN $1 AND
$2` (date-only filter), `ORDER BY day ASC`. -/
def rangeDailySummary (st : DbState) (userId : Nat) (s e : Date) :
    List (Date × Int) :=
  let rows := st.expenses.filter (fun x => x.user_id == userId && inDateRange s e x)
  (sortDatesAsc (daysOf rows)).map (fun d => (d, sumFor d rows))

/-- `GET /reports/range-category-summary`: groups by `category` with
`SUM(amount)` over the date-only filter, `ORDER BY total_amount DESC`. -/
def rangeCategorySummary (st : DbState) (userId : Nat) (s e : Date) :
    List (String × Int) :=
  let rows := st.expenses.filter (fun x => x.user_id == userId && inDateRange s e x)
  ((categoriesOf rows).map (fun c => (c, sumForCat c rows))).insertionSort totalDesc

/-! ## POST /categories and DELETE /categories (server.js lines 479–531) -/

/-- JavaScript truthiness of `!name` on `req.body.name`: absent
(`undefined`) or the empty string. -/
def nameFalsy : Option String → Bool
  | none => true
  | some s => s == ""

/-- `POST /categories`: a falsy name is rejected with 400 before any query;
`INSERT INTO categories (name, user_id) VALUES ($1, $2) RETURNING name`
raises 23505 (mapped to 409) when the (name, user_id) pair already exists,
and otherwise returns 201 with the stored name. -/
def createCategory (st : DbState) (userId : Nat) (name : Option String) :
    Resp String × DbState :=
  if nameFalsy name then
    (.err 400 "Category name is required", st)
  else
    let n := name.getD ""
    if st.categories.any (fun c => c.name == n && c.user_id == userId) then
      (.err 409 "Category already exists", st)
    else
      (.ok 201 n, { st with categories := ⟨n, userId⟩ :: st.categories })

/-- `DELETE /categories`: a falsy name is rejected with 400 before any
query; `DELETE FROM categories WHERE name = $1 AND user_id = $2 RETURNING *`
with `rowCount = 0` yields 404. -/
def deleteCategory (st : DbState) (userId : Nat) (name : Option String) :
    Resp String × DbState :=
  if nameFalsy name then
    (.err 400 "Category name is required", st)
  else
    let n := name.getD ""
    let deleted := st.categories.filter (fun c => c.name == n && c.user_id == userId)
    if deleted.isEmpty then
      (.err 404 "Category not found or you do not have permission to delete it.", st)
    else
      (.ok 200 "Category deleted successfully",
       { st with categories :=
          st.categories.filter (fun c => !(c.name == n && c.user_id == userId)) })

/-! ## Theorems -/

/-- C1: for every user and every expense id, when no expense row has both
that id and that user id — the row being absent and the row being owned by
another user alike — `PUT /expenses/:id` and `DELETE /expenses/:id` answer
404 with a fixed error response (so the two causes are indistinguishable)
and leave the store unchanged. -/
theorem update_delete_notFound (st : DbState) (userId expenseId : Nat)
    (amount : Int) (description category : String)
    (created_at : Option Timestamp)
    (h : ∀ e ∈ st.expenses, ¬(e.id = expenseId ∧ e.user_id = userId)) :
    updateExpense st userId expenseId amount description category created_at
      = (.err 404 "Expense not found or you do not have permission to edit it.", st)
    ∧ deleteExpense st userId expenseId
      = (.err 404 "Expense not found or not authorized", st) := by
  have hf : st.expenses.filter (fun e => e.id == expenseId && e.user_id == userId) = [] := by
    rw [List.filter_eq_nil_iff]
    intro e he
    simp only [Bool.and_eq_true, beq_iff_eq, not_and]
    intro h1 h2
    exact h e he ⟨h1, h2⟩
  constructor
  · simp [updateExpense, hf]
  · simp [deleteExpense, hf]

/-- A state holding one expense owned by user 2, for concrete checks. -/
def exW : Expense := ⟨5, 10, "bus", "transport", some ⟨2024, 3, 10, 3600⟩, 2⟩

/-- One-row store owned by user 2. -/
def stW : DbState := ⟨[], [exW], []⟩

/-- Concrete instance of `update_delete_notFound`: user 1 touching user 2's
expense id 5 gets 404 from both handlers and the store is unchanged. -/
theorem update_delete_notFound_witness :
    updateExpense stW 1 5 7 "x" "y" none
      = (.err 404 "Expense not found or you do not have permission to edit it.", stW)
    ∧ deleteExpense stW 1 5
      = (.err 404 "Expense not found or not authorized", stW) :=
  update_delete_notFound stW 1 5 7 "x" "y" none (by decide)

/-- C2: the auth middleware rejects exactly when the Authorization header
is absent (or empty, which no token verifier accepts) or verification
fails, every rejection carries status 401, a pass attaches the decoded
user id, and of all registered routes only Register and Login omit the
middleware. -/
theorem authMiddleware_spec (verify : String → Option Nat)
    (authHeader : Option String) (hempty : verify "" = none) :
    ((∃ s m, authMiddleware verify authHeader = .reject s m) ↔
      (authHeader = none ∨ verify (authHeader.getD "") = none))
    ∧ (∀ s m, authMiddleware verify authHeader = .reject s m → s = 401)
    ∧ (∀ userId, authMiddleware verify authHeader = .ok userId →
        verify (authHeader.getD "") = some userId)
    ∧ (∀ r ∈ routes, r.usesAuthMiddleware = false ↔
        (r.path = "/api/register" ∨ r.path = "/api/login")) := by
  refine ⟨?_, ?_, ?_, by decide⟩
  · match authHeader with
    | none => simp [authMiddleware, tokenFalsy]
    | some t =>
      by_cases ht : t = ""
      · subst ht
        simp [authMiddleware, tokenFalsy, hempty]
      · simp only [authMiddleware, tokenFalsy, beq_iff_eq, if_neg ht, Option.getD_some]
        match hv : verify t with
        | none => simp
        | some u => simp
  · intro s m hr
    unfold authMiddleware at hr
    split at hr
    · cases hr; rfl
    · split at hr
      · exact absurd hr (by simp)
      · cases hr; rfl
  · intro userId hr
    unfold authMiddleware at hr
    split at hr
    · exact absurd hr (by simp)
    · split at hr
      next hv => cases hr; exact hv
      next => exact absurd hr (by simp)

/-- A token verifier accepting exactly the token "tok-7" as user 7. -/
def verifyW (t : String) : Option Nat :=
  if t == "tok-7" then some 7 else none

/-- Concrete instance of `authMiddleware_spec`: a header the verifier
rejects makes the middleware reject. -/
theorem authMiddleware_spec_witness :
    ∃ s m, authMiddleware verifyW (some "bad") = AuthResult.reject s m :=
  ((authMiddleware_spec verifyW (some "bad") (by decide)).1).mpr (Or.inr (by decide))

/-- C3 (refuting the claim): `POST /expenses` always lists `created_at` in
its INSERT and binds the request value to it, so a request that omits
`created_at` stores SQL NULL — the column's `DEFAULT now()` (which fires
only for an INSERT omitting the column, first conjunct) never applies, and
both the returned row and the stored row carry `created_at = none`, not
the current time. -/
theorem createExpense_missing_created_at (st : DbState) (now : Timestamp)
    (userId : Nat) (amount : Int) (description category : String) :
    storedCreatedAt none now = some now
    ∧ (createExpense st now userId amount description category none).1
        = .ok 201 ⟨nextExpenseId st, amount, description, category, none, userId⟩
    ∧ ((createExpense st now userId amount description category none).2.expenses.getLast?).map
        Expense.created_at = some none := by
  refine ⟨rfl, by simp [createExpense, storedCreatedAt], ?_⟩
  simp [createExpense, List.getLast?_concat, storedCreatedAt]

/-- C5: registering a username or email that already exists answers 400
with the conflict message and leaves the users table unchanged; any other
storage fault answers 500, also leaving the store unchanged. -/
theorem register_conflict (st : DbState) (hash : String → String)
    (sign : Nat → String) (username email password : String)
    (hdup : ∃ u ∈ st.users, u.username = username ∨ u.email = email) :
    register st hash sign username email password false
      = (.err 400 "Username or email already exists", st)
    ∧ ∀ st2 : DbState, register st2 hash sign username email password true
      = (.err 500 "Server error during registration", st2) := by
  constructor
  · have hany : st.users.any (fun u => u.username == username || u.email == email) = true := by
      rw [List.any_eq_true]
      obtain ⟨u, hu, hor⟩ := hdup
      exact ⟨u, hu, by simpa using hor⟩
    simp [register, insertUser, hany]
  · intro st2
    rfl

/-- A users table already holding "alice" / "a@x.com". -/
def stU : DbState := ⟨[⟨1, "alice", "a@x.com", "h1"⟩], [], []⟩

/-- Concrete instance of `register_conflict`: re-registering the username
"alice" (fresh email) is rejected with 400 and the table is unchanged. -/
theorem register_conflict_witness :
    register stU (fun p => p) (fun _ => "t") "alice" "b@y.com" "pw" false
      = (.err 400 "Username or email already exists", stU) :=
  (register_conflict stU (fun p => p) (fun _ => "t") "alice" "b@y.com" "pw"
    ⟨⟨1, "alice", "a@x.com", "h1"⟩, by decide, Or.inl rfl⟩).1

/-- C6: a login whose username has no row and a login whose password fails
the bcrypt comparison produce the very same response — status 400 with the
one generic message — so the two causes are indistinguishable to the
caller. -/
theorem login_generic_failure (st : DbState)
    (compare : String → String → Bool) (sign : Nat → String)
    (username password : String) :
    (findUser st username = none →
      login st compare sign username password
        = .err 400 "Invalid username or password")
    ∧ (∀ u, findUser st username = some u →
        compare password u.password_hash = false →
        login st compare sign username password
          = .err 400 "Invalid username or password") := by
  constructor
  · intro h
    simp [login, h]
  · intro u h hc
    simp [login, h, hc]

/-- C8: creating a category with an absent or empty name answers 400
without touching the store; a (name, user) pair already present answers
409, also without touching the store; otherwise the row is inserted and
201 returns the name. -/
theorem createCategory_spec (st : DbState) (userId : Nat) (n : String)
    (hne : n ≠ "") :
    createCategory st userId none = (.err 400 "Category name is required", st)
    ∧ createCategory st userId (some "") = (.err 400 "Category name is required", st)
    ∧ ((∃ c ∈ st.categories, c.name = n ∧ c.user_id = userId) →
        createCategory st userId (some n) = (.err 409 "Category already exists", st))
    ∧ ((∀ c ∈ st.categories, ¬(c.name = n ∧ c.user_id = userId)) →
        createCategory st userId (some n)
          = (.ok 201 n, { st with categories := ⟨n, userId⟩ :: st.categories })) := by
  refine ⟨rfl, rfl, ?_, ?_⟩
  · intro hdup
    have hany : st.categories.any (fun c => c.name == n && c.user_id == userId) = true := by
      rw [List.any_eq_true]
      obtain ⟨c, hc, h1, h2⟩ := hdup
      exact ⟨c, hc, by simp [h1, h2]⟩
    simp [createCategory, nameFalsy, hne, hany]
  · intro hnone
    have hany : st.categories.any (fun c => c.name == n && c.user_id == userId) = false := by
      rw [List.any_eq_false]
      intro c hc
      simp only [Bool.and_eq_true, beq_iff_eq, not_and]
      intro h1 h2
      exact hnone c hc ⟨h1, h2⟩
    simp [createCategory, nameFalsy, hne, hany]

/-- A categories table already holding ("food", user 1). -/
def stC : DbState := ⟨[], [], [⟨"food", 1⟩]⟩

/-- Concrete instance of `createCategory_spec`: user 1 re-creating "food"
gets 409 and the store is unchanged. -/
theorem createCategory_spec_witness :
    createCategory stC 1 (some "food") = (.err 409 "Category already exists", stC) :=
  (createCategory_spec stC 1 "food" (by decide)).2.2.1
    ⟨⟨"food", 1⟩, by decide, rfl, rfl⟩

/-- C9: deleting a category with an absent or empty name answers 400 — a
code the spec's interface table does not list for this route — and the
store is untouched (the 400 is issued before any query). -/
theorem deleteCategory_validation (st : DbState) (userId : Nat) :
    deleteCategory st userId none = (.err 400 "Category name is required", st)
    ∧ deleteCategory st userId (some "")
      = (.err 400 "Category name is required", st) :=
  ⟨rfl, rfl⟩

/-- C4: `GET /expenses` with both month and year returns exactly the
caller's expenses whose `created_at` lies in that calendar month, in
descending `created_at` order; with either parameter missing the month
filter is dropped and exactly the caller's full expense set is returned,
in the same order. -/
theorem listExpenses_spec (st : DbState) (userId m y : Nat)
    (month year : Option Nat) (hmy : month = none ∨ year = none) :
    ((listExpenses st userId (some m) (some y)).Perm
        (st.expenses.filter (fun e => e.user_id == userId && monthYearMatches m y e))
      ∧ List.Sorted createdDesc (listExpenses st userId (some m) (some y)))
    ∧ ((listExpenses st userId month year).Perm
        (st.expenses.filter (fun e => e.user_id == userId))
      ∧ List.Sorted createdDesc (listExpenses st userId month year)) := by
  refine ⟨⟨List.perm_insertionSort _ _, List.sorted_insertionSort _ _⟩, ?_⟩
  rcases hmy with h | h
  · subst h
    cases year with
    | none => exact ⟨List.perm_insertionSort _ _, List.sorted_insertionSort _ _⟩
    | some y2 => exact ⟨List.perm_insertionSort _ _, List.sorted_insertionSort _ _⟩
  · subst h
    cases month with
    | none => exact ⟨List.perm_insertionSort _ _, List.sorted_insertionSort _ _⟩
    | some m2 => exact ⟨List.perm_insertionSort _ _, List.sorted_insertionSort _ _⟩

/-- Concrete instance of `listExpenses_spec` at `month = some 3`,
`year = none`: the filter is dropped and user 2's whole set comes back. -/
theorem listExpenses_spec_witness :
    ((listExpenses stW 2 (some 3) (some 2024)).Perm
        (stW.expenses.filter (fun e => e.user_id == 2 && monthYearMatches 3 2024 e))
      ∧ List.Sorted createdDesc (listExpenses stW 2 (some 3) (some 2024)))
    ∧ ((listExpenses stW 2 (some 3) none).Perm
        (stW.expenses.filter (fun e => e.user_id == 2))
      ∧ List.Sorted createdDesc (listExpenses stW 2 (some 3) none)) :=
  listExpenses_spec stW 2 3 2024 (some 3) none (Or.inr rfl)

/-- C7: every row of `GET /reports/range-daily-summary` sums the amounts of
exactly the caller's expenses whose `created_at` *date component* equals
that row's day and lies in [startDate, endDate]; every expense of the
caller whose date component lies in the inclusive range — whatever its
time of day — contributes a row for its day; and the days are pairwise
distinct and ascending. -/
theorem rangeDailySummary_spec (st : DbState) (userId : Nat) (s e : Date) :
    (∀ p ∈ rangeDailySummary st userId s e,
        p.2 = ((st.expenses.filter (fun x =>
            x.user_id == userId && inDateRange s e x && expenseDate x == some p.1)).map
            Expense.amount).sum
      ∧ ∃ x ∈ st.expenses, x.user_id = userId ∧ inDateRange s e x = true
          ∧ expenseDate x = some p.1)
    ∧ (∀ x ∈ st.expenses, x.user_id = userId → ∀ t, x.created_at = some t →
        Date.le s t.date → Date.le t.date e →
        ∃ amt, (t.date, amt) ∈ rangeDailySummary st userId s e)
    ∧ List.Sorted dateAsc ((rangeDailySummary st userId s e).map Prod.fst)
    ∧ ((rangeDailySummary st userId s e).map Prod.fst).Nodup := by
  have hmapfst : (rangeDailySummary st userId s e).map Prod.fst
      = sortDatesAsc (daysOf (st.expenses.filter
          (fun x => x.user_id == userId && inDateRange s e x))) := by
    simp [rangeDailySummary, List.map_map, Function.comp_def]
  refine ⟨?_, ?_, ?_, ?_⟩
  · intro p hp
    rw [rangeDailySummary, List.mem_map] at hp
    obtain ⟨d, hd, hpd⟩ := hp
    subst hpd
    rw [sortDatesAsc, List.mem_insertionSort, daysOf, List.mem_dedup,
      List.mem_filterMap] at hd
    obtain ⟨x, hx, hxd⟩ := hd
    rw [List.mem_filter] at hx
    constructor
    · dsimp only
      rw [sumFor, List.filter_filter]
      congr 1
      congr 1
      apply List.filter_congr
      intro a _
      rw [Bool.and_comm]
    · refine ⟨x, hx.1, ?_, ?_, ?_⟩
      · have := hx.2
        simp only [Bool.and_eq_true, beq_iff_eq] at this
        exact this.1
      · have := hx.2
        simp only [Bool.and_eq_true, beq_iff_eq] at this
        exact this.2
      · exact hxd
  · intro x hx hu t ht hs he
    have hxr : x ∈ st.expenses.filter (fun x => x.user_id == userId && inDateRange s e x) := by
      rw [List.mem_filter]
      refine ⟨hx, ?_⟩
      have hr : inDateRange s e x = true := by
        simp only [inDateRange, ht, Bool.and_eq_true, decide_eq_true_eq]
        exact ⟨hs, he⟩
      simp [hu, hr]
    have hday : t.date ∈ daysOf (st.expenses.filter
        (fun x => x.user_id == userId && inDateRange s e x)) := by
      rw [daysOf, List.mem_dedup, List.mem_filterMap]
      exact ⟨x, hxr, by simp [expenseDate, ht]⟩
    refine ⟨sumFor t.date (st.expenses.filter
        (fun x => x.user_id == userId && inDateRange s e x)), ?_⟩
    rw [rangeDailySummary, List.mem_map]
    exact ⟨t.date, by rw [sortDatesAsc, List.mem_insertionSort]; exact hday, rfl⟩
  · rw [hmapfst]
    exact List.sorted_insertionSort _ _
  · rw [hmapfst]
    exact ((List.perm_insertionSort _ _).symm).nodup (List.nodup_dedup _)

/-- The timestamp order, spelt out field by field. -/
theorem tsLe_def (a b : Timestamp) : a.le b ↔
    (a.year < b.year ∨ (a.year = b.year ∧ (a.month < b.month ∨ (a.month = b.month
      ∧ (a.day < b.day ∨ (a.day = b.day ∧ a.sec ≤ b.sec)))))) := by
  simp [Timestamp.le, Timestamp.key, Prod.Lex.le_iff]

/-- The date order, spelt out field by field. -/
theorem dateLe_def (a b : Date) : a.le b ↔
    (a.year < b.year ∨ (a.year = b.year ∧ (a.month < b.month ∨ (a.month = b.month
      ∧ a.day ≤ b.day)))) := by
  simp [Date.le, Date.key, Prod.Lex.le_iff]

/-- C10: the weekly reports compare the full `created_at` timestamp with
the bare end date (midnight), while the range reports compare only the
date component; so an expense on the end date with any time of day after
midnight vanishes from weekly-summary and weekly-category-summary, yet is
counted by range-daily-summary and range-category-summary over the same
window. -/
theorem weekly_vs_range_endDate (userId : Nat) (s e : Date) (x : Expense)
    (t : Timestamp) (hc : x.created_at = some t) (hd : t.date = e)
    (hsec : 0 < t.sec) (hu : x.user_id = userId) (hse : Date.le s e) :
    weeklySummary ⟨[], [x], []⟩ userId s e = []
    ∧ weeklyCategorySummary ⟨[], [x], []⟩ userId s e = []
    ∧ rangeDailySummary ⟨[], [x], []⟩ userId s e = [(e, x.amount)]
    ∧ rangeCategorySummary ⟨[], [x], []⟩ userId s e = [(x.category, x.amount)] := by
  subst hd
  have hts : tsBetween s t.date x = false := by
    have hnot : ¬ Timestamp.le t (tsOfDate t.date) := by
      rw [tsLe_def]
      simp only [tsOfDate, Timestamp.date]
      omega
    simp [tsBetween, hc, hnot]
  have hee : Date.le t.date t.date := le_refl t.date.key
  have hdr : inDateRange s t.date x = true := by
    simp only [inDateRange, hc, Bool.and_eq_true, decide_eq_true_eq]
    exact ⟨hse, hee⟩
  refine ⟨?_, ?_, ?_, ?_⟩
  · simp [weeklySummary, hts, daysOf, sortDatesAsc]
  · simp [weeklyCategorySummary, hts, categoriesOf]
  · simp [rangeDailySummary, hdr, hu, daysOf, sortDatesAsc, expenseDate, hc,
      sumFor, List.insertionSort, List.orderedInsert, sumForCat]
  · simp [rangeCategorySummary, hdr, hu, categoriesOf, sumForCat,
      List.insertionSort, List.orderedInsert, hc]

/-- Concrete instance of `weekly_vs_range_endDate`: an expense at 01:00 on
the end date of [2024-01-01, 2024-01-03] is missing from both weekly
reports and present in both range reports. -/
theorem weekly_vs_range_endDate_witness :
    weeklySummary ⟨[], [⟨1, 25, "d", "food", some ⟨2024, 1, 3, 3600⟩, 1⟩], []⟩
        1 ⟨2024, 1, 1⟩ ⟨2024, 1, 3⟩ = []
    ∧ weeklyCategorySummary ⟨[], [⟨1, 25, "d", "food", some ⟨2024, 1, 3, 3600⟩, 1⟩], []⟩
        1 ⟨2024, 1, 1⟩ ⟨2024, 1, 3⟩ = []
    ∧ rangeDailySummary ⟨[], [⟨1, 25, "d", "food", some ⟨2024, 1, 3, 3600⟩, 1⟩], []⟩
        1 ⟨2024, 1, 1⟩ ⟨2024, 1, 3⟩ = [(⟨2024, 1, 3⟩, 25)]
    ∧ rangeCategorySummary ⟨[], [⟨1, 25, "d", "food", some ⟨2024, 1, 3, 3600⟩, 1⟩], []⟩
        1 ⟨2024, 1, 1⟩ ⟨2024, 1, 3⟩ = [("food", 25)] :=
  weekly_vs_range_endDate 1 ⟨2024, 1, 1⟩ ⟨2024, 1, 3⟩
    ⟨1, 25, "d", "food", some ⟨2024, 1, 3, 3600⟩, 1⟩ ⟨2024, 1, 3, 3600⟩
    rfl rfl (by decide) rfl (by decide)

end ExpenseTracker
